import Mathlib

/-!
Shallow embedding of the JobFinder multi-user scan pipeline.

Sources embedded here:
  - database_multiuser.py : the SQLite-backed store (discovered_jobs,
    approved_jobs, user_scan_control tables and their accessors);
  - utils_multiuser.py    : start_scan_for_user / stop_scan_for_user
    (the later, shadowing definitions at the bottom of the file);
  - scrape_multiuser.py   : the per-user scrape phase, the per-page link
    loop and the per-job detail pipeline _fetch_and_update_for_user;
  - app_multiuser.py      : init_app start-up behaviour.

Tables are embedded as lists of row structures; SQL statements become the
corresponding list transformations.  A key point of the embedding is the
semantics of the SQLite statement INSERT OR REPLACE: on a UNIQUE conflict
the old row is deleted and a brand-new row is inserted, so every column
that the statement does not name reverts to its schema DEFAULT.  Both
set_stop_scan_flag and set_scan_active name only one of the two flag
columns, so each call resets the other flag to FALSE.
-/

namespace JobFinder

/-- Row of the user_scan_control table.  Schema defaults: both flags
FALSE (database_multiuser.py, init_multiuser_db). -/
structure ScanRow where
  stop_scan_flag : Bool
  scan_active : Bool
deriving Repr, DecidableEq

/-- The user_scan_control table keyed by user_id (UNIQUE per user):
for each user id, the row if one exists. -/
abbrev Registry := Nat → Option ScanRow

/-- database_multiuser.set_stop_scan_flag: INSERT OR REPLACE naming the
columns (user_id, stop_scan_flag).  The replacing row takes the schema
DEFAULT FALSE for the unnamed scan_active column. -/
def set_stop_scan_flag (u : Nat) (stop : Bool) (reg : Registry) : Registry :=
  fun v => if v = u then some { stop_scan_flag := stop, scan_active := false } else reg v

/-- database_multiuser.set_scan_active: INSERT OR REPLACE naming the
columns (user_id, scan_active).  The replacing row takes the schema
DEFAULT FALSE for the unnamed stop_scan_flag column. -/
def set_scan_active (u : Nat) (active : Bool) (reg : Registry) : Registry :=
  fun v => if v = u then some { stop_scan_flag := false, scan_active := active } else reg v

/-- database_multiuser.should_stop_scan: read of stop_scan_flag, FALSE
when the user has no row. -/
def should_stop_scan (u : Nat) (reg : Registry) : Bool :=
  match reg u with
  | some r => r.stop_scan_flag
  | none => false

/-- database_multiuser.is_scan_active: read of scan_active, FALSE when
the user has no row. -/
def is_scan_active (u : Nat) (reg : Registry) : Bool :=
  match reg u with
  | some r => r.scan_active
  | none => false

/-- utils_multiuser.start_scan_for_user, the later definition
(lines 244-265), which shadows the earlier one of the same name.
Returns the updated registry and the (accepted, message) pair.
load_user_config does not touch the registry and is elided. -/
def start_scan_for_user (u : Nat) (reg : Registry) : Registry × Bool × String :=
  if is_scan_active u reg then
    (reg, false, "Scan is already active")
  else
    let reg1 := set_stop_scan_flag u false reg
    let reg2 := set_scan_active u true reg1
    (reg2, true, "Scan started successfully")

/-- utils_multiuser.stop_scan_for_user, the later definition
(lines 267-275). -/
def stop_scan_for_user (u : Nat) (reg : Registry) : Registry × Bool × String :=
  let reg1 := set_stop_scan_flag u true reg
  let reg2 := set_scan_active u false reg1
  (reg2, true, "Scan stop signal sent")

/-- Registry effect of the per-query loop of
scrape_multiuser.scrape_phase_for_user (lines 45-55): at each query the
loop first consults the in-memory signal and should_stop_scan; on a stop
it acknowledges by set_stop_scan_flag(user, False) and breaks.
Page processing (process_search_page_for_user) never writes the
user_scan_control table, and neither does the finally block (lines
60-75), so on the no-stop path the registry is untouched.  The searches
argument stands for the enumerated search list; only its length matters
to the registry. -/
def scrape_phase_registry (u : Nat) (stopSig : Bool) (searches : List Nat)
    (reg : Registry) : Registry :=
  match searches with
  | [] => reg
  | _ :: rest =>
      if stopSig || should_stop_scan u reg then set_stop_scan_flag u false reg
      else scrape_phase_registry u stopSig rest reg

/-- Names of the functions defined in utils_multiuser.py (module-level
def statements).  app_multiuser.init_app (line 51) calls
utils.reset_all_scan_flags(), so start-up requires that name to be
among these definitions. -/
def utils_multiuser_defs : List String :=
  ["ensure_database_initialized", "get_project_info", "start_scan_for_user",
   "stop_scan_for_user", "load_user_config", "save_user_config",
   "flatten_dict", "get_default_config", "get_user_presets",
   "save_user_preset", "load_user_preset", "delete_user_preset",
   "get_scan_status"]

/-- Row of the discovered_jobs table.  id is the INTEGER PRIMARY KEY;
UNIQUE(user_id, job_id); title and description are nullable; analyzed
defaults FALSE.  date_discovered is not needed by the claims. -/
structure JobRow where
  id : Nat
  user_id : Nat
  job_id : Nat
  url : String
  location : String
  keyword : String
  title : Option String
  description : Option String
  analyzed : Bool
deriving Repr, DecidableEq

/-- Row of the approved_jobs table.  id is the INTEGER PRIMARY KEY;
UNIQUE(user_id, discovered_job_id); date_applied nullable;
is_archived and is_dismissed default FALSE.  Timestamps are abstract
naturals. -/
structure ApprovedRow where
  id : Nat
  user_id : Nat
  discovered_job_id : Nat
  reason : String
  date_approved : Nat
  date_applied : Option Nat
  is_archived : Bool
  is_dismissed : Bool
deriving Repr, DecidableEq

/-- AUTOINCREMENT id generation: strictly larger than every id in use. -/
def next_id (ids : List Nat) : Nat := ids.foldr max 0 + 1

/-- Does the discovered_jobs table hold a row for (user_id, job_id)? -/
def hasJob (db : List JobRow) (u j : Nat) : Bool :=
  db.any fun r => r.user_id == u && r.job_id == j

/-- First discovered_jobs row for (user_id, job_id), as fetchone. -/
def findJob (db : List JobRow) (u j : Nat) : Option JobRow :=
  db.find? fun r => r.user_id == u && r.job_id == j

/-- database_multiuser.insert_stub: INSERT OR IGNORE into
discovered_jobs with the UNIQUE(user_id, job_id) constraint; returns
the table and rowcount greater than 0, that is whether a row was
actually inserted.  Inserted rows carry NULL title and description and
analyzed FALSE (schema defaults). -/
def insert_stub (u j : Nat) (url location keyword : String) (db : List JobRow) :
    List JobRow × Bool :=
  if hasJob db u j then (db, false)
  else (db ++ [{ id := next_id (db.map (·.id)), user_id := u, job_id := j,
                 url := url, location := location, keyword := keyword,
                 title := none, description := none, analyzed := false }], true)

/-- database_multiuser.row_missing_details: TRUE when the row is absent
or its title is NULL. -/
def row_missing_details (u j : Nat) (db : List JobRow) : Bool :=
  match findJob db u j with
  | none => true
  | some r => r.title.isNone

/-- database_multiuser.update_details: UPDATE discovered_jobs SET
title = ?, description = ? WHERE user_id = ? AND job_id = ?.  Both
columns are set unconditionally to the supplied values on every
matching row. -/
def update_details (u j : Nat) (title desc : Option String) (db : List JobRow) :
    List JobRow :=
  db.map fun r =>
    if r.user_id == u && r.job_id == j then { r with title := title, description := desc }
    else r

/-- database_multiuser.mark_job_as_analyzed: UPDATE discovered_jobs SET
analyzed = TRUE WHERE user_id = ? AND job_id = ?. -/
def mark_job_as_analyzed (u j : Nat) (db : List JobRow) : List JobRow :=
  db.map fun r =>
    if r.user_id == u && r.job_id == j then { r with analyzed := true } else r

/-- database_multiuser.approve_job: look up the discovered_jobs row for
(user_id, linkedin_job_id); if absent return False; otherwise INSERT OR
IGNORE into approved_jobs under UNIQUE(user_id, discovered_job_id) and
return True whether or not the insert was ignored as a duplicate. -/
def approve_job (u ljid : Nat) (reason : String) (now : Nat)
    (ddb : List JobRow) (adb : List ApprovedRow) : List ApprovedRow × Bool :=
  match findJob ddb u ljid with
  | none => (adb, false)
  | some r =>
      if adb.any (fun a => a.user_id == u && a.discovered_job_id == r.id) then (adb, true)
      else (adb ++ [{ id := next_id (adb.map (·.id)), user_id := u,
                      discovered_job_id := r.id, reason := reason,
                      date_approved := now, date_applied := none,
                      is_archived := false, is_dismissed := false }], true)

/-- Row predicate of database_multiuser.mark_job_as_applied: WHERE
user_id = ? AND id = ? AND date_applied IS NULL. -/
def applied_match (u k : Nat) (a : ApprovedRow) : Bool :=
  a.user_id == u && a.id == k && a.date_applied.isNone

/-- database_multiuser.mark_job_as_applied: UPDATE approved_jobs SET
date_applied = CURRENT_TIMESTAMP, is_archived = TRUE on the matching
rows; returns rowcount greater than 0. -/
def mark_job_as_applied (u k now : Nat) (adb : List ApprovedRow) :
    List ApprovedRow × Bool :=
  (adb.map fun a =>
     if applied_match u k a then { a with date_applied := some now, is_archived := true }
     else a,
   adb.any (applied_match u k))

/-- database_multiuser.get_user_job_count: COUNT of discovered_jobs rows
of the user. -/
def get_user_job_count (u : Nat) (db : List JobRow) : Nat :=
  (db.filter fun r => r.user_id == u).length

/-- ASCII lower-casing of a character, used to embed case-insensitive
matching over character lists. -/
def lowerAscii (c : Char) : Char :=
  if 65 ≤ c.toNat ∧ c.toNat ≤ 90 then Char.ofNat (c.toNat + 32) else c

/-- Modelled from the spec: contains_exclusions is defined in
evaluate.py, which is not among the provided source files (only its
caller scrape_multiuser._fetch_and_update_for_user is).  Spec section
4.5: a case-insensitive substring containment test against the
user-supplied keyword list; any match excludes; an empty exclusion list
never matches. -/
def contains_exclusions (text : String) (kws : List String) : Bool :=
  kws.any fun kw =>
    decide ((kw.toList.map lowerAscii) <:+: (text.toList.map lowerAscii))

/-- Python truthiness of the statement "if title and
contains_exclusions(title, exclusion_keywords)" in
scrape_multiuser.py lines 162 and 179: a None title and the empty
string are both falsy, so the exclusion test is skipped for them. -/
def title_excluded (title : Option String) (kws : List String) : Bool :=
  match title with
  | some t => (t != "") && contains_exclusions t kws
  | none => false

/-- Python truthiness of "if desc and desc.strip()" in
scrape_multiuser.py line 196: the description must be present and not
reduce to the empty string after stripping whitespace, that is it must
contain some non-whitespace character. -/
def desc_truthy (desc : Option String) : Bool :=
  match desc with
  | some d => d.toList.any fun c => !c.isWhitespace
  | none => false

/-- Response of the AI evaluator as consumed by the pipeline:
ai_response.get("eligible") truthiness and the reasoning text after the
default for a missing key. -/
structure AIResp where
  eligible : Bool
  reasoning : String
deriving Repr, DecidableEq

/-- Observable outcome of one _fetch_and_update_for_user call: the two
tables afterwards, whether analyze_job_for_user was invoked, and
whether the [APPROVED] console event was emitted (scrape_multiuser.py
lines 206-215: printed exactly when approve_job returned True). -/
structure FetchOutcome where
  ddb : List JobRow
  adb : List ApprovedRow
  aiInvoked : Bool
  loggedApproval : Bool
deriving Repr, DecidableEq

/-- Python statement "if title is None: title = g_title" (and the same
for the description): keep the page value when present, otherwise take
the guest-API fallback. -/
def fallback (page guest : Option String) : Option String :=
  match page with
  | some t => some t
  | none => guest

/-- Final phase of _fetch_and_update_for_user (scrape_multiuser.py
lines 195-222): run the AI evaluator when the description is truthy,
approve on an eligible verdict logging exactly when approve_job
returned True, swallow an evaluator exception, and in every case mark
the job analyzed at the end. -/
def ai_phase (u j : Nat) (desc : Option String) (ai : Except String AIResp)
    (now : Nat) (ddb1 : List JobRow) (adb : List ApprovedRow) : FetchOutcome :=
  if desc_truthy desc then
    match ai with
    | .error _ =>
        { ddb := mark_job_as_analyzed u j ddb1, adb := adb,
          aiInvoked := true, loggedApproval := false }
    | .ok resp =>
        if resp.eligible then
          { ddb := mark_job_as_analyzed u j ddb1,
            adb := (approve_job u j resp.reasoning now ddb1 adb).1,
            aiInvoked := true,
            loggedApproval := (approve_job u j resp.reasoning now ddb1 adb).2 }
        else
          { ddb := mark_job_as_analyzed u j ddb1, adb := adb,
            aiInvoked := true, loggedApproval := false }
  else
    { ddb := mark_job_as_analyzed u j ddb1, adb := adb,
      aiInvoked := false, loggedApproval := false }

/-- scrape_multiuser._fetch_and_update_for_user (lines 139-222) for user
u and job j.  Network effects enter as parameters: pageTitle and
pageDesc are what extract_job_title / extract_job_description produced
from the detail page (both none when get_soup returned None), gTitle
and gDesc come from the _fetch_guest fallback, and ai is the result of
analyze_job_for_user, with error standing for a raised exception
(caught at lines 216-219).  The in-memory stop_signal list is read at
several checkpoints; within one call it is modelled as the constant
stop (no concurrent mutation). -/
def fetch_and_update_for_user (u j : Nat) (stop : Bool) (excl : List String)
    (pageTitle pageDesc gTitle gDesc : Option String)
    (ai : Except String AIResp) (now : Nat)
    (ddb : List JobRow) (adb : List ApprovedRow) : FetchOutcome :=
  if stop then { ddb := ddb, adb := adb, aiInvoked := false, loggedApproval := false }
  else if title_excluded pageTitle excl then
    { ddb := mark_job_as_analyzed u j ddb, adb := adb,
      aiInvoked := false, loggedApproval := false }
  else if title_excluded (fallback pageTitle gTitle) excl then
    { ddb := mark_job_as_analyzed u j ddb, adb := adb,
      aiInvoked := false, loggedApproval := false }
  else
    ai_phase u j (fallback pageDesc gDesc) ai now
      (if (fallback pageTitle gTitle).isSome || (fallback pageDesc gDesc).isSome then
        update_details u j (fallback pageTitle gTitle) (fallback pageDesc gDesc) ddb
      else ddb)
      adb

/-- Re-queue decision of scrape_multiuser.process_search_page_for_user
lines 108-110 when a later scan meets the same link again: insert_stub,
then queue for detail processing when the insert was new or the row is
missing details. -/
def requeue_check (u j : Nat) (url location keyword : String) (db : List JobRow) : Bool :=
  (insert_stub u j url location keyword db).2 ||
    row_missing_details u j (insert_stub u j url location keyword db).1

/-- One stub discovery as fed to insert_stub by the link loop. -/
structure Stub where
  u : Nat
  j : Nat
  url : String
  location : String
  keyword : String
deriving Repr, DecidableEq

/-- Effect on discovered_jobs of the insert_stub calls a run performs,
in order (scrape_multiuser.py line 108). -/
def apply_stubs (db : List JobRow) : List Stub → List JobRow
  | [] => db
  | s :: rest => apply_stubs (insert_stub s.u s.j s.url s.location s.keyword db).1 rest

/-- Delta accounting of scrape_multiuser.scrape_phase_for_user:
new_jobs_this_run = get_user_job_count after the run minus the count
snapshotted before it (lines 29 and 65-66), with the run inserting the
given stubs. -/
def scrape_new_jobs (u : Nat) (db : List JobRow) (stubs : List Stub) : Nat :=
  get_user_job_count u (apply_stubs db stubs) - get_user_job_count u db

/-- A freshly inserted stub row for user 1, job 5, as insert_stub leaves
it: NULL title and description, analyzed FALSE. -/
def example_stub_row : JobRow :=
  { id := 1, user_id := 1, job_id := 5, url := "u", location := "l", keyword := "k",
    title := none, description := none, analyzed := false }

/-- Discovered-jobs table holding only the stub row. -/
def example_ddb : List JobRow := [example_stub_row]

/-- Approved-jobs table already holding an approval of the stub row
(user 1, discovered_job_id 1). -/
def example_adb : List ApprovedRow :=
  [{ id := 1, user_id := 1, discovered_job_id := 1, reason := "r0", date_approved := 0,
     date_applied := none, is_archived := false, is_dismissed := false }]

/-- A discovered row whose title and description have both been
recorded. -/
def example_detail_ddb : List JobRow :=
  [{ id := 1, user_id := 1, job_id := 5, url := "u", location := "l", keyword := "k",
     title := some "T", description := some "D", analyzed := false }]

/-- An approved-jobs table with one not-yet-applied row, primary key 7,
owned by user 2. -/
def example_adb2 : List ApprovedRow :=
  [{ id := 7, user_id := 2, discovered_job_id := 3, reason := "why", date_approved := 0,
     date_applied := none, is_archived := false, is_dismissed := false }]

/-- Number of discovered_jobs rows carrying the key (user_id, job_id);
the UNIQUE(user_id, job_id) constraint keeps it at most 1. -/
def count_user_job (u j : Nat) (db : List JobRow) : Nat :=
  (db.filter fun r => r.user_id == u && r.job_id == j).length

/-! Theorems. -/

/-- C1: single-flight per user.  If the registry already shows an active
scan, start_scan_for_user returns accepted false with a message and
leaves the registry untouched; if no scan is active it returns accepted
true and sets is_active to true. -/
theorem start_scan_single_flight (u : Nat) (reg : Registry) :
    (is_scan_active u reg = true →
      start_scan_for_user u reg = (reg, false, "Scan is already active")) ∧
    (is_scan_active u reg = false →
      (start_scan_for_user u reg).2.1 = true ∧
      is_scan_active u (start_scan_for_user u reg).1 = true) := by
  constructor
  · intro h
    simp [start_scan_for_user, h]
  · intro h
    have hcond : ¬ (is_scan_active u reg = true) := by simp [h]
    rw [start_scan_for_user, if_neg hcond]
    refine ⟨rfl, ?_⟩
    simp [is_scan_active, set_scan_active]

/-- Witness for C1: both branches of the single-flight theorem at
concrete registries, one idle and one with an active scan. -/
theorem start_scan_single_flight_witness :
    ((start_scan_for_user 1 (fun _ => none)).2.1 = true ∧
      is_scan_active 1 (start_scan_for_user 1 (fun _ => none)).1 = true) ∧
    start_scan_for_user 1 (fun _ => some { stop_scan_flag := false, scan_active := true }) =
      ((fun _ => some { stop_scan_flag := false, scan_active := true }), false,
        "Scan is already active") :=
  ⟨(start_scan_single_flight 1 (fun _ => none)).2 rfl,
   (start_scan_single_flight 1
      (fun _ => some { stop_scan_flag := false, scan_active := true })).1 rfl⟩

/-- C2: the code contradicts the level-triggered stop-flag claim.
stop_scan_for_user sets the stop flag and then calls set_scan_active,
whose INSERT OR REPLACE writes a fresh row in which stop_scan_flag
reverts to the schema DEFAULT FALSE; so immediately after a stop
request is accepted, should_stop_scan already reads false, with no
Orchestrator acknowledgment in between. -/
theorem stop_flag_cleared_by_requester (u : Nat) (reg : Registry) :
    (stop_scan_for_user u reg).2.1 = true ∧
    should_stop_scan u (stop_scan_for_user u reg).1 = false := by
  refine ⟨rfl, ?_⟩
  simp [stop_scan_for_user, should_stop_scan, set_scan_active, set_stop_scan_flag]

/-- C3: the registry cleanup claim fails on the code.  Starting a scan
sets is_active true; the scrape phase of scrape_multiuser.py never
writes scan_active, so after a run that completes without a stop the
registry still shows is_active true when control returns; and the
start-up reset init_app relies on (utils_multiuser.reset_all_scan_flags),
a name the module does not define, so boot raises AttributeError
instead of clearing stale flags. -/
theorem registry_left_active_after_run :
    is_scan_active 1 (scrape_phase_registry 1 false [0, 1]
      (start_scan_for_user 1 (fun _ => none)).1) = true ∧
    "reset_all_scan_flags" ∉ utils_multiuser_defs := by
  exact ⟨rfl, by decide⟩

/-- C4: insert_stub idempotence.  A call on a table already holding a
row for (u, j) returns false and leaves the table exactly as it was,
whatever the payload and whatever title or description the row has
acquired in the meantime; a call on a table without the row inserts it
and returns true; and the number of (u, j) rows never exceeds one. -/
theorem insert_stub_idempotent (u j : Nat) (url location keyword : String)
    (db : List JobRow) :
    (hasJob db u j = true →
      insert_stub u j url location keyword db = (db, false)) ∧
    (hasJob db u j = false →
      (insert_stub u j url location keyword db).2 = true ∧
      hasJob (insert_stub u j url location keyword db).1 u j = true) ∧
    (count_user_job u j db ≤ 1 →
      count_user_job u j (insert_stub u j url location keyword db).1 ≤ 1) := by
  refine ⟨fun h => by rw [insert_stub, if_pos h], fun h => ?_, fun h => ?_⟩
  · have hcond : ¬ (hasJob db u j = true) := by simp [h]
    rw [insert_stub, if_neg hcond]
    refine ⟨rfl, ?_⟩
    simp [hasJob, List.any_append]
  · by_cases hj : hasJob db u j = true
    · rw [insert_stub, if_pos hj]
      exact h
    · rw [insert_stub, if_neg hj]
      have hj' : hasJob db u j = false := by simpa using hj
      have hz : (db.filter fun r => r.user_id == u && r.job_id == j).length = 0 := by
        rw [List.length_eq_zero, List.filter_eq_nil_iff]
        intro a ha
        simpa using List.any_eq_false.mp hj' a ha
      simp only [count_user_job, List.filter_append, List.length_append, hz,
        Nat.zero_add, List.filter_cons, List.filter_nil]
      split <;> simp

/-- Witness for C4: the three conjuncts at concrete tables, a table that
holds the (1, 5) row and the empty table. -/
theorem insert_stub_idempotent_witness :
    insert_stub 1 5 "u2" "l2" "k2" example_ddb = (example_ddb, false) ∧
    ((insert_stub 1 5 "u" "l" "k" []).2 = true ∧
      hasJob (insert_stub 1 5 "u" "l" "k" []).1 1 5 = true) ∧
    count_user_job 1 5 (insert_stub 1 5 "u2" "l2" "k2" example_ddb).1 ≤ 1 :=
  ⟨(insert_stub_idempotent 1 5 "u2" "l2" "k2" example_ddb).1 (by decide),
   (insert_stub_idempotent 1 5 "u" "l" "k" []).2.1 (by decide),
   (insert_stub_idempotent 1 5 "u2" "l2" "k2" example_ddb).2.2 (by decide)⟩

/-- C5: evaluation of the code at the failing input.  approve_job does
return false and insert nothing when the discovered row is absent, and
two approvals of the same job leave exactly one approval row; but on a
duplicate it still returns true, so the pipeline of
scrape_multiuser.py lines 204-215, which prints the [APPROVED] event
exactly when approve_job returned true, logs the approval again even
though no approval row was newly created — against the claim that the
event is logged only on a newly created approval. -/
theorem approve_job_duplicate_still_logged :
    approve_job 1 99 "r" 3 example_ddb example_adb = (example_adb, false) ∧
    approve_job 1 5 "r" 3 example_ddb example_adb = (example_adb, true) ∧
    (approve_job 1 5 "r2" 4 example_ddb (approve_job 1 5 "r1" 3 example_ddb []).1).1.length = 1 ∧
    (fetch_and_update_for_user 1 5 false [] (some "T") (some "great job") none none
      (.ok { eligible := true, reasoning := "r" }) 3 example_ddb example_adb).loggedApproval
      = true := by
  decide

/-- Counterexample to C6 as stated: with exclusion list containing the
empty keyword and a fetched title that is the empty string, the title
does contain an exclusion keyword under substring matching, yet the
Python truthiness test (if title and contains_exclusions(...)) skips
the exclusion check for the falsy empty string, so the AI evaluator is
invoked and an approval is created. -/
theorem exclusion_empty_title_counterexample :
    contains_exclusions "" [""] = true ∧
    (fetch_and_update_for_user 1 5 false [""] (some "") (some "desc") none none
      (.ok { eligible := true, reasoning := "r" }) 0 example_ddb []).aiInvoked = true ∧
    (fetch_and_update_for_user 1 5 false [""] (some "") (some "desc") none none
      (.ok { eligible := true, reasoning := "r" }) 0 example_ddb []).loggedApproval
      = true := by
  decide

/-- C6 amended: for a job whose fetched title is truthy (present and
nonempty) and contains a configured exclusion keyword — or whose page
title is absent and whose fallback title is truthy and contains one —
processing marks the job analyzed and returns with no AI invocation,
no approval and no other change, regardless of description; and the
empty exclusion list never matches any title. -/
theorem exclusion_short_circuit (u j : Nat) (excl : List String)
    (pt pd gt gd : Option String) (ai : Except String AIResp) (now : Nat)
    (ddb : List JobRow) (adb : List ApprovedRow) :
    (title_excluded pt excl = true ∨ (pt = none ∧ title_excluded gt excl = true) →
      fetch_and_update_for_user u j false excl pt pd gt gd ai now ddb adb =
        { ddb := mark_job_as_analyzed u j ddb, adb := adb,
          aiInvoked := false, loggedApproval := false }) ∧
    (∀ t : String, contains_exclusions t [] = false) := by
  constructor
  · rintro (h | ⟨hn, hg⟩)
    · simp [fetch_and_update_for_user, h]
    · subst hn
      have h0 : title_excluded (none : Option String) excl = false := rfl
      have h1 : fallback (none : Option String) gt = gt := rfl
      simp [fetch_and_update_for_user, h0, h1, hg]
  · intro t
    rfl

/-- Witness for C6: the amended theorem applied to the scenario of the
spec, title Senior Backend Engineer against exclusion keyword senior. -/
theorem exclusion_short_circuit_witness :
    title_excluded (some "Senior Backend Engineer") ["senior"] = true ∧
    fetch_and_update_for_user 1 5 false ["senior"] (some "Senior Backend Engineer")
        (some "desc") none none (.ok { eligible := true, reasoning := "r" }) 0
        example_ddb [] =
      { ddb := mark_job_as_analyzed 1 5 example_ddb, adb := [],
        aiInvoked := false, loggedApproval := false } :=
  ⟨by decide,
   (exclusion_short_circuit 1 5 ["senior"] (some "Senior Backend Engineer") (some "desc")
      none none (.ok { eligible := true, reasoning := "r" }) 0 example_ddb []).1
     (Or.inl (by decide))⟩

/-- A row map that does not touch the key columns leaves hasJob
unchanged. -/
theorem hasJob_map_keys (f : JobRow → JobRow)
    (hf : ∀ r, (f r).user_id = r.user_id ∧ (f r).job_id = r.job_id)
    (db : List JobRow) (u j : Nat) :
    hasJob (db.map f) u j = hasJob db u j := by
  rw [hasJob, List.any_map, hasJob]
  congr 1
  funext r
  simp only [Function.comp_apply, (hf r).1, (hf r).2]

/-- mark_job_as_analyzed preserves which keys are present. -/
theorem hasJob_mark_analyzed (u j u' j' : Nat) (db : List JobRow) :
    hasJob (mark_job_as_analyzed u j db) u' j' = hasJob db u' j' := by
  apply hasJob_map_keys
  intro r
  constructor <;> (dsimp only; split <;> rfl)

/-- update_details preserves which keys are present. -/
theorem hasJob_update_details (u j : Nat) (t d : Option String) (u' j' : Nat)
    (db : List JobRow) :
    hasJob (update_details u j t d db) u' j' = hasJob db u' j' := by
  apply hasJob_map_keys
  intro r
  constructor <;> (dsimp only; split <;> rfl)

/-- hasJob as the presence of a findJob result. -/
theorem hasJob_eq_findJob_isSome (db : List JobRow) (u j : Nat) :
    hasJob db u j = (findJob db u j).isSome := by
  rw [hasJob, findJob]
  induction db with
  | nil => rfl
  | cons r rs ih =>
      rw [List.any_cons, List.find?_cons]
      cases hr : (r.user_id == u && r.job_id == j) <;> simp [hr, ih]

/-- Searching a key with find? commutes with a row map that does not
touch the key columns. -/
theorem find?_map_keys (f : JobRow → JobRow)
    (hf : ∀ r, (f r).user_id = r.user_id ∧ (f r).job_id = r.job_id)
    (db : List JobRow) (u j : Nat) :
    List.find? (fun r => r.user_id == u && r.job_id == j) (db.map f) =
      (List.find? (fun r => r.user_id == u && r.job_id == j) db).map f := by
  induction db with
  | nil => rfl
  | cons r rs ih =>
      simp only [List.map_cons, List.find?_cons]
      have hkey : ((f r).user_id == u && (f r).job_id == j) =
          (r.user_id == u && r.job_id == j) := by
        rw [(hf r).1, (hf r).2]
      rw [hkey]
      cases hpr : (r.user_id == u && r.job_id == j)
      · simpa using ih
      · rfl

/-- After mark_job_as_analyzed, the (u, j) row reads analyzed when it is
present at all. -/
theorem findJob_mark_analyzed (u j : Nat) (db : List JobRow)
    (h : hasJob db u j = true) :
    (findJob (mark_job_as_analyzed u j db) u j).map (·.analyzed) = some true := by
  have hmap : findJob (mark_job_as_analyzed u j db) u j =
      (findJob db u j).map (fun r =>
        if (r.user_id == u && r.job_id == j) = true then { r with analyzed := true }
        else r) := by
    apply find?_map_keys
    intro r
    constructor <;> (dsimp only; split <;> rfl)
  rw [hmap]
  have hsome : (findJob db u j).isSome = true := by
    rw [← hasJob_eq_findJob_isSome]
    exact h
  obtain ⟨r, hr⟩ := Option.isSome_iff_exists.mp hsome
  rw [hr]
  rw [findJob] at hr
  have hpr0 := List.find?_some hr
  have hpr : (r.user_id == u && r.job_id == j) = true := hpr0
  have hpr' : r.user_id = u ∧ r.job_id = j := by simpa using hpr
  simp [hpr'.1, hpr'.2]

/-- The AI phase always ends by marking the job analyzed on the table it
was handed. -/
theorem ai_phase_ddb (u j : Nat) (desc : Option String) (ai : Except String AIResp)
    (now : Nat) (ddb1 : List JobRow) (adb : List ApprovedRow) :
    (ai_phase u j desc ai now ddb1 adb).ddb = mark_job_as_analyzed u j ddb1 := by
  unfold ai_phase
  split
  · split
    · rfl
    · split <;> rfl
  · rfl

/-- Shape of the discovered table after one fetch_and_update_for_user
call with no stop signal: every path ends in mark_job_as_analyzed,
applied either directly or after update_details. -/
theorem fetch_ddb_shape (u j : Nat) (excl : List String)
    (pt pd gt gd : Option String) (ai : Except String AIResp) (now : Nat)
    (ddb : List JobRow) (adb : List ApprovedRow) :
    (fetch_and_update_for_user u j false excl pt pd gt gd ai now ddb adb).ddb =
      mark_job_as_analyzed u j ddb ∨
    (∃ t d, (fetch_and_update_for_user u j false excl pt pd gt gd ai now ddb adb).ddb =
      mark_job_as_analyzed u j (update_details u j t d ddb)) := by
  rw [fetch_and_update_for_user, if_neg (show ¬ (false = true) by simp)]
  split_ifs with h1 h2 h3
  · exact Or.inl rfl
  · exact Or.inl rfl
  · exact Or.inr ⟨_, _, ai_phase_ddb u j _ ai now _ adb⟩
  · exact Or.inl (ai_phase_ddb u j _ ai now _ adb)

/-- Counterexample to C7 as stated: a job excluded on its page title is
marked analyzed but its stored title stays NULL, because the exclusion
path returns before update_details; re-queuing (lines 108-110) is gated
on the missing title, not on the analyzed flag, so the very same job is
queued for detail processing again by a future scan of the same user. -/
theorem analyzed_job_requeued_counterexample :
    (findJob (fetch_and_update_for_user 1 5 false ["senior"] (some "Senior Dev")
        (some "great") none none (.ok { eligible := true, reasoning := "r" }) 0
        example_ddb []).ddb 1 5).map (·.analyzed) = some true ∧
    requeue_check 1 5 "u" "l" "k" (fetch_and_update_for_user 1 5 false ["senior"]
        (some "Senior Dev") (some "great") none none
        (.ok { eligible := true, reasoning := "r" }) 0 example_ddb []).ddb = true := by
  decide

/-- C7 amended: with no stop signal, every completion path of a
dequeued job (excluded, evaluated eligible or not, missing description,
or an AI-evaluation error) ends with mark_analyzed, so the analyzed
flag of the (u, j) row is true afterwards; and the job is not re-queued
by a future scan provided its stored title is then present — re-queuing
is gated on a missing title, not on the analyzed flag. -/
theorem mark_analyzed_every_completion_path (u j : Nat)
    (url location keyword : String) (excl : List String)
    (pt pd gt gd : Option String) (ai : Except String AIResp) (now : Nat)
    (ddb : List JobRow) (adb : List ApprovedRow)
    (h : hasJob ddb u j = true) :
    (findJob (fetch_and_update_for_user u j false excl pt pd gt gd ai now ddb adb).ddb
        u j).map (·.analyzed) = some true ∧
    (row_missing_details u j
        (fetch_and_update_for_user u j false excl pt pd gt gd ai now ddb adb).ddb = false →
      requeue_check u j url location keyword
        (fetch_and_update_for_user u j false excl pt pd gt gd ai now ddb adb).ddb
        = false) := by
  have main : ∀ db0 : List JobRow, hasJob db0 u j = true →
      (findJob (mark_job_as_analyzed u j db0) u j).map (·.analyzed) = some true ∧
      (row_missing_details u j (mark_job_as_analyzed u j db0) = false →
        requeue_check u j url location keyword (mark_job_as_analyzed u j db0) = false) := by
    intro db0 h0
    refine ⟨findJob_mark_analyzed u j db0 h0, fun hmiss => ?_⟩
    have hhas : hasJob (mark_job_as_analyzed u j db0) u j = true := by
      rw [hasJob_mark_analyzed]
      exact h0
    have hins : insert_stub u j url location keyword (mark_job_as_analyzed u j db0) =
        (mark_job_as_analyzed u j db0, false) := by
      rw [insert_stub, if_pos hhas]
    rw [requeue_check, hins]
    simpa using hmiss
  obtain hc | ⟨t, d, hc⟩ := fetch_ddb_shape u j excl pt pd gt gd ai now ddb adb
  · rw [hc]
    exact main ddb h
  · rw [hc]
    refine main (update_details u j t d ddb) ?_
    rw [hasJob_update_details]
    exact h

/-- Witness for C7: the amended theorem at a concrete run that records a
title and an eligible description for the stub row. -/
theorem mark_analyzed_every_completion_path_witness :
    hasJob example_ddb 1 5 = true ∧
    (findJob (fetch_and_update_for_user 1 5 false [] (some "Title") (some "great")
        none none (.ok { eligible := true, reasoning := "r" }) 0 example_ddb []).ddb
        1 5).map (·.analyzed) = some true :=
  ⟨by decide,
   (mark_analyzed_every_completion_path 1 5 "u" "l" "k" [] (some "Title") (some "great")
      none none (.ok { eligible := true, reasoning := "r" }) 0 example_ddb []
      (by decide)).1⟩

/-- Counterexample to C8 as stated: the UPDATE statement of
update_details sets both columns unconditionally, so passing None for
the description clears a previously stored description instead of
leaving it unchanged. -/
theorem update_details_clears_unset_field :
    (findJob example_detail_ddb 1 5).map (·.description) = some (some "D") ∧
    (findJob (update_details 1 5 (some "T2") none example_detail_ddb) 1 5).map
      (·.description) = some none := by
  decide

/-- C8 amended: update_details overwrites both title and description of
the (u, j) row with exactly the supplied values — a field passed as
None is cleared to NULL rather than preserved — and rows under any
other key are untouched. -/
theorem update_details_sets_both_fields (u j : Nat) (t d : Option String)
    (db : List JobRow) :
    findJob (update_details u j t d db) u j =
      (findJob db u j).map (fun r => { r with title := t, description := d }) ∧
    (∀ r ∈ db, (r.user_id == u && r.job_id == j) = false →
      r ∈ update_details u j t d db) := by
  constructor
  · have hmap : findJob (update_details u j t d db) u j =
        (findJob db u j).map (fun r =>
          if (r.user_id == u && r.job_id == j) = true
          then { r with title := t, description := d } else r) := by
      apply find?_map_keys
      intro r
      constructor <;> (dsimp only; split <;> rfl)
    rw [hmap]
    cases hfind : findJob db u j with
    | none => rfl
    | some r =>
        rw [findJob] at hfind
        have hpr0 := List.find?_some hfind
        have hpr : (r.user_id == u && r.job_id == j) = true := hpr0
        have hpr' : r.user_id = u ∧ r.job_id = j := by simpa using hpr
        simp [hpr'.1, hpr'.2]
  · intro r hr hkey
    have hfix : (fun s : JobRow =>
        if (s.user_id == u && s.job_id == j) = true
        then { s with title := t, description := d } else s) r = r := by
      dsimp only
      rw [if_neg]
      simp [hkey]
    have hmem := List.mem_map_of_mem (fun s : JobRow =>
        if (s.user_id == u && s.job_id == j) = true
        then { s with title := t, description := d } else s) hr
    rw [hfix] at hmem
    exact hmem

/-- Witness for C8: both conjuncts of the amended theorem at concrete
tables. -/
theorem update_details_sets_both_fields_witness :
    findJob (update_details 1 5 (some "T2") none example_detail_ddb) 1 5 =
      (findJob example_detail_ddb 1 5).map
        (fun r => { r with title := some "T2", description := none }) ∧
    example_stub_row ∈ update_details 2 9 (some "x") (some "y") example_ddb :=
  ⟨(update_details_sets_both_fields 1 5 (some "T2") none example_detail_ddb).1,
   (update_details_sets_both_fields 2 9 (some "x") (some "y") example_ddb).2
     example_stub_row (by decide) (by decide)⟩

/-- Inserting a fresh stub for user u grows the row count of that user
by exactly one. -/
theorem get_user_job_count_insert_fresh (u : Nat) (s : Stub) (db : List JobRow)
    (hu : s.u = u) (hf : hasJob db s.u s.j = false) :
    get_user_job_count u (insert_stub s.u s.j s.url s.location s.keyword db).1 =
      get_user_job_count u db + 1 := by
  have hcond : ¬ (hasJob db s.u s.j = true) := by simp [hf]
  rw [insert_stub, if_neg hcond]
  simp [get_user_job_count, List.filter_append, hu]

/-- Presence of a key after a fresh stub insert: the old presence, or
the inserted key itself. -/
theorem hasJob_insert (u2 j2 : Nat) (s : Stub) (db : List JobRow)
    (hf : hasJob db s.u s.j = false) :
    hasJob (insert_stub s.u s.j s.url s.location s.keyword db).1 u2 j2 =
      (hasJob db u2 j2 || (s.u == u2 && s.j == j2)) := by
  have hcond : ¬ (hasJob db s.u s.j = true) := by simp [hf]
  rw [insert_stub, if_neg hcond]
  simp [hasJob, List.any_append]

/-- Fresh pairwise-distinct stubs of user u raise the count by exactly
their number. -/
theorem count_apply_stubs (u : Nat) :
    ∀ (stubs : List Stub) (db : List JobRow),
      (∀ s ∈ stubs, s.u = u) →
      (∀ s ∈ stubs, hasJob db s.u s.j = false) →
      (stubs.map (·.j)).Nodup →
      get_user_job_count u (apply_stubs db stubs) =
        get_user_job_count u db + stubs.length := by
  intro stubs
  induction stubs with
  | nil =>
      intro db _ _ _
      simp [apply_stubs]
  | cons s rest ih =>
      intro db hu hf hnd
      have hs : s.u = u := hu s (by simp)
      have hfs : hasJob db s.u s.j = false := hf s (by simp)
      rw [List.map_cons] at hnd
      have hnd' := List.nodup_cons.mp hnd
      rw [apply_stubs]
      rw [ih (insert_stub s.u s.j s.url s.location s.keyword db).1
        (fun s' hs' => hu s' (by simp [hs']))
        (fun s' hs' => ?_) hnd'.2]
      · rw [get_user_job_count_insert_fresh u s db hs hfs]
        simp [List.length_cons]
        omega
      · rw [hasJob_insert _ _ s db hfs]
        have hf' : hasJob db s'.u s'.j = false := hf s' (by simp [hs'])
        have hjne : ¬ (s.j = s'.j) := by
          intro heq
          exact hnd'.1 (by
            rw [heq]
            exact List.mem_map_of_mem (fun x => x.j) hs')
        simp [hf', hjne]

/-- C9: delta accounting.  For a run that inserts exactly the given
stubs, all previously unknown for user u, none repeated and no other
activity touching the store, new_jobs as computed by the
scrape-phase before/after count snapshot equals the number of stubs. -/
theorem delta_accounting (u : Nat) (db : List JobRow) (stubs : List Stub)
    (hu : ∀ s ∈ stubs, s.u = u)
    (hfresh : ∀ s ∈ stubs, hasJob db s.u s.j = false)
    (hnodup : (stubs.map (·.j)).Nodup) :
    scrape_new_jobs u db stubs = stubs.length := by
  rw [scrape_new_jobs, count_apply_stubs u stubs db hu hfresh hnodup]
  omega

/-- Witness for C9: two fresh stubs for user 1 on the empty store give
new_jobs = 2. -/
theorem delta_accounting_witness :
    scrape_new_jobs 1 [] [⟨1, 10, "a", "b", "c"⟩, ⟨1, 11, "a", "b", "c"⟩] = 2 :=
  delta_accounting 1 [] [⟨1, 10, "a", "b", "c"⟩, ⟨1, 11, "a", "b", "c"⟩]
    (by decide) (by decide) (by decide)

/-- After one mark_job_as_applied pass, no row still satisfies the
update predicate: a matched row now carries a timestamp, an unmatched
row is unchanged. -/
theorem applied_match_after (u k now : Nat) (a : ApprovedRow) :
    applied_match u k (if applied_match u k a
      then { a with date_applied := some now, is_archived := true } else a) = false := by
  by_cases h : applied_match u k a = true
  · rw [if_pos h]
    simp [applied_match]
  · rw [if_neg h]
    simpa using h

/-- When no row matches the update predicate, mark_job_as_applied is the
identity and reports false. -/
theorem mark_job_as_applied_eq (u k now : Nat) (adb : List ApprovedRow)
    (hnone : ∀ a ∈ adb, applied_match u k a = false) :
    mark_job_as_applied u k now adb = (adb, false) := by
  rw [mark_job_as_applied, Prod.mk.injEq]
  constructor
  · have h1 : ∀ a ∈ adb, (fun a => if applied_match u k a
        then { a with date_applied := some now, is_archived := true } else a) a = id a := by
      intro a ha
      simp [hnone a ha]
    rw [List.map_congr_left h1, List.map_id]
  · exact List.any_eq_false.mpr (fun a ha => by simp [hnone a ha])

/-- C10: applied-at-most-once.  mark_job_as_applied reports true exactly
when some row of the user with that primary key is still unapplied; a
matching row gets the timestamp and the archived flag; a non-matching
row is untouched; and a second call on the result is a no-op returning
false, whatever later timestamp it would write. -/
theorem mark_applied_at_most_once (u k now now2 : Nat) (adb : List ApprovedRow) :
    ((mark_job_as_applied u k now adb).2 = true ↔
      ∃ a ∈ adb, a.user_id = u ∧ a.id = k ∧ a.date_applied = none) ∧
    (∀ a ∈ adb, applied_match u k a = true →
      { a with date_applied := some now, is_archived := true } ∈
        (mark_job_as_applied u k now adb).1) ∧
    (∀ a ∈ adb, applied_match u k a = false →
      a ∈ (mark_job_as_applied u k now adb).1) ∧
    mark_job_as_applied u k now2 (mark_job_as_applied u k now adb).1 =
      ((mark_job_as_applied u k now adb).1, false) := by
  refine ⟨?_, ?_, ?_, ?_⟩
  · simp [mark_job_as_applied, applied_match, List.any_eq_true,
      Option.isNone_iff_eq_none, and_assoc]
  · intro a ha h
    have hfa : (if applied_match u k a
        then { a with date_applied := some now, is_archived := true } else a) =
        { a with date_applied := some now, is_archived := true } := if_pos h
    have hmem := List.mem_map_of_mem (fun a => if applied_match u k a
        then { a with date_applied := some now, is_archived := true } else a) ha
    have hmem2 : (if applied_match u k a
        then { a with date_applied := some now, is_archived := true } else a) ∈
        (mark_job_as_applied u k now adb).1 := hmem
    rw [hfa] at hmem2
    exact hmem2
  · intro a ha h
    have hfa : (if applied_match u k a
        then { a with date_applied := some now, is_archived := true } else a) = a := by
      rw [if_neg]
      simp [h]
    have hmem := List.mem_map_of_mem (fun a => if applied_match u k a
        then { a with date_applied := some now, is_archived := true } else a) ha
    have hmem2 : (if applied_match u k a
        then { a with date_applied := some now, is_archived := true } else a) ∈
        (mark_job_as_applied u k now adb).1 := hmem
    rw [hfa] at hmem2
    exact hmem2
  · refine mark_job_as_applied_eq u k now2 _ ?_
    intro b hb
    rw [mark_job_as_applied] at hb
    obtain ⟨a, ha, hab⟩ := List.mem_map.mp hb
    rw [← hab]
    exact applied_match_after u k now a

/-- Witness for C10: user 2 applies approved row 7; the row carries the
timestamp afterwards and a repeated call is a rejected no-op. -/
theorem mark_applied_at_most_once_witness :
    ({ id := 7, user_id := 2, discovered_job_id := 3, reason := "why", date_approved := 0,
       date_applied := some 5, is_archived := true, is_dismissed := false } : ApprovedRow) ∈
      (mark_job_as_applied 2 7 5 example_adb2).1 ∧
    mark_job_as_applied 2 7 9 (mark_job_as_applied 2 7 5 example_adb2).1 =
      ((mark_job_as_applied 2 7 5 example_adb2).1, false) :=
  ⟨(mark_applied_at_most_once 2 7 5 9 example_adb2).2.1
      { id := 7, user_id := 2, discovered_job_id := 3, reason := "why", date_approved := 0,
        date_applied := none, is_archived := false, is_dismissed := false }
      (by decide) (by decide),
   (mark_applied_at_most_once 2 7 5 9 example_adb2).2.2.2⟩

end JobFinder
